import Mathlib

/-!
Shallow embedding of the Proxi policy engine and tool-execution gateway.

The embedding follows the source files:
  src/guardrails/policy_engine.py  (PolicyEngine: validate, set_mode, _load_policy)
  src/mcp_server/tools.py          (CloudInfrastructure and the mock tools)
  src/mcp_server/server.py         (execute_tool and _execute_tool_function)

Python dicts are modelled as association lists with first-match lookup
(Python dicts cannot hold duplicate keys, so first-match agrees with dict
lookup on every state the code can build).  Wall-clock timestamps
(datetime.now().isoformat()) are modelled by an explicit `now : String`
parameter threaded into each call.  Console printing is ignored: it does
not affect any value or state the code computes.
-/

/-- A Python runtime value, as far as the JSON-shaped data in this code base
needs: None, bools, ints, strings, lists and string-keyed dicts.
Floating-point numbers never occur in the code's own data and are outside
the model. -/
inductive Value where
  | vNone
  | vBool (b : Bool)
  | vInt (n : Int)
  | vStr (s : String)
  | vList (elems : List Value)
  | vDict (fields : List (String × Value))

/-- A Python dict with string keys, as an association list. -/
abbrev PyDict := List (String × Value)

/-- First-match lookup in an association list (Python `d[k]` / `d.get(k)`). -/
def pyLookup {α : Type} : List (String × α) → String → Option α
  | [], _ => Option.none
  | (k, v) :: rest, key => if k = key then Option.some v else pyLookup rest key

/-- Python `k in d` for a dict. -/
def pyHasKey {α : Type} (d : List (String × α)) (key : String) : Bool :=
  (pyLookup d key).isSome

/-- Python `list(d.keys())`. -/
def pyKeys {α : Type} (d : List (String × α)) : List String :=
  d.map Prod.fst

/-- The per-mode rules of the policy document: one entry of `policy["modes"]`
(fields `description`, `rationale`, `allowed_tools`, `blocked_tools`). -/
structure ModeRules where
  description : String
  rationale : String
  allowed_tools : List String
  blocked_tools : List String
  deriving Repr, DecidableEq

/-- Typed view of a well-formed policy document: `modes` is the
`policy["modes"]` map and `always_blocked` is
`policy["global_rules"]["always_blocked"]`.  The Python code stores the raw
parsed dict and indexes these keys directly on every access (a malformed
document raises KeyError at access time, not at load time; see
`load_policy`). -/
structure Policy where
  modes : List (String × ModeRules)
  always_blocked : List String
  deriving Repr, DecidableEq

/-- The mutable state of `PolicyEngine`: the loaded policy (never mutated
after `__init__`) and `current_mode`. -/
structure PolicyEngine where
  policy : Policy
  current_mode : String
  deriving Repr, DecidableEq

/-- `PolicyEngine.__init__`: stores the loaded policy and sets
`current_mode = "NORMAL"` unconditionally (the comment in the source calls
this the most restrictive default; the policy document is not consulted). -/
def PolicyEngine.init (policy : Policy) : PolicyEngine :=
  { policy := policy, current_mode := "NORMAL" }

/-- Outcome of `PolicyEngine.validate`: normal return True, a raised
`PolicyViolationError(message, tool_name, mode, reason)`, or a raised
KeyError when `current_mode` is not a key of `policy["modes"]`. -/
inductive ValidateResult where
  | ok
  | violation (message : String) (tool_name : String) (mode : String) (reason : String)
  | keyError (key : String)
  deriving Repr, DecidableEq

/-- `PolicyEngine.validate(tool_name, args=None, context=None)`.
The body rebinds `args = args or ...` and `context = context or ...` and
then never reads either again; the decision depends only on `tool_name`,
the policy and the current mode. -/
def PolicyEngine.validate (e : PolicyEngine) (tool_name : String)
    (args : Option PyDict) (context : Option PyDict) : ValidateResult :=
  let _ := args.getD []
  let _ := context.getD []
  if tool_name ∈ e.policy.always_blocked then
    ValidateResult.violation
      ("Tool '" ++ tool_name ++ "' is globally blocked and can never be executed")
      tool_name e.current_mode "Globally blocked - destructive operation"
  else
    match pyLookup e.policy.modes e.current_mode with
    | Option.none => ValidateResult.keyError e.current_mode
    | Option.some mode_policy =>
      if tool_name ∈ mode_policy.blocked_tools then
        ValidateResult.violation
          ("Tool '" ++ tool_name ++ "' is blocked in " ++ e.current_mode ++
            " mode. Rationale: " ++ mode_policy.rationale)
          tool_name e.current_mode ("Blocked in " ++ e.current_mode ++ " mode")
      else if tool_name ∉ mode_policy.allowed_tools then
        ValidateResult.violation
          ("Tool '" ++ tool_name ++ "' is not in the allowed list for " ++
            e.current_mode ++ " mode")
          tool_name e.current_mode
          ("Not whitelisted for " ++ e.current_mode ++ " mode")
      else
        ValidateResult.ok

/-- Python `repr` of a list of strings, used in the `set_mode` error message
(`list(self.policy["modes"].keys())` interpolated into an f-string). -/
def pyReprStrList (ks : List String) : String :=
  "[" ++ String.intercalate ", " (ks.map (fun k => "'" ++ k ++ "'")) ++ "]"

/-- `PolicyEngine.set_mode(mode)`: raises `ValueError` (left component) when
`mode` is not a key of `policy["modes"]`, leaving the state untouched;
otherwise assigns `current_mode = mode`.  State passing makes the mutation
explicit: the right component is the post-call state. -/
def PolicyEngine.set_mode (e : PolicyEngine) (mode : String) :
    Except String Unit × PolicyEngine :=
  if ¬ pyHasKey e.policy.modes mode then
    (Except.error ("Invalid mode: " ++ mode ++ ". Available: " ++
      pyReprStrList (pyKeys e.policy.modes)), e)
  else
    (Except.ok (), { e with current_mode := mode })

/-- `PolicyEngine.get_current_mode()`. -/
def PolicyEngine.get_current_mode (e : PolicyEngine) : String :=
  e.current_mode

/-- The states of a `PolicyEngine` reachable from construction over a fixed
loaded policy: the freshly constructed engine, and anything obtained from a
reachable state by a `set_mode` call (the only mutating method). -/
inductive Reachable (p : Policy) : PolicyEngine → Prop where
  | init : Reachable p (PolicyEngine.init p)
  | step (e : PolicyEngine) (mode : String) (he : Reachable p e) :
      Reachable p (e.set_mode mode).2

/-- The condition of the policy source file as `_load_policy` observes it:
absent on disk, present but not valid JSON, or parsed to a JSON document. -/
inductive PolicySource where
  | missing
  | unparsable
  | parsed (doc : Value)

/-- The exceptions `_load_policy` can raise: `FileNotFoundError` when the
path does not exist, `json.JSONDecodeError` out of `json.load`, and
`AttributeError` from the startup banner's `policy.get(...)` calls when the
parsed top level is not a dict (lists, strings, numbers, bools and None
have no `.get`). -/
inductive LoadError where
  | fileNotFound
  | jsonDecodeError
  | attributeError
  deriving Repr, DecidableEq

/-- `PolicyEngine._load_policy()`: raises on a missing or unparsable source;
on a parsed document the banner line `policy.get("policy_name", ...)`
raises `AttributeError` if the top level is not a dict, and otherwise the
document is returned as is — `.get` with a default cannot fail on a dict,
so no key of the document is inspected; in particular the presence of
"modes" and "global_rules" is not checked here. -/
def load_policy : PolicySource → Except LoadError Value
  | PolicySource.missing => Except.error LoadError.fileNotFound
  | PolicySource.unparsable => Except.error LoadError.jsonDecodeError
  | PolicySource.parsed doc =>
    match doc with
    | Value.vDict fields => Except.ok (Value.vDict fields)
    | _ => Except.error LoadError.attributeError

/-- One entry of `CloudInfrastructure.execution_log`, as `_log_action`
builds it: `timestamp` (here the explicit clock parameter), `action` and
`details`. -/
structure LogEntry where
  timestamp : String
  action : String
  details : PyDict

/-- The mutable state of the `CloudInfrastructure` mock: the `services`
health dict, `fleet_size` and the append-only `execution_log`. -/
structure Infra where
  services : List (String × String)
  fleet_size : Int
  execution_log : List LogEntry

/-- `CloudInfrastructure.__init__`. -/
def Infra.init : Infra :=
  { services := [("web-server", "healthy"), ("api-gateway", "healthy"),
      ("database", "healthy"), ("cache", "healthy")],
    fleet_size := 3,
    execution_log := [] }

/-- `CloudInfrastructure._log_action(action, details)`: appends one entry to
`execution_log`. -/
def Infra.logAction (infra : Infra) (now action : String) (details : PyDict) : Infra :=
  { infra with execution_log :=
      infra.execution_log ++ [{ timestamp := now, action := action, details := details }] }

mutual

/-- Python `repr` of a value, to the extent the code interpolates values
into messages (string escaping inside repr is not reproduced: the code
never feeds strings needing escapes through it). -/
def pyRepr : Value → String
  | Value.vNone => "None"
  | Value.vBool b => if b then "True" else "False"
  | Value.vInt n => toString n
  | Value.vStr s => "'" ++ s ++ "'"
  | Value.vList elems => "[" ++ String.intercalate ", " (pyReprElems elems) ++ "]"
  | Value.vDict fields => "\x7b" ++ String.intercalate ", " (pyReprFields fields) ++ "\x7d"

def pyReprElems : List Value → List String
  | [] => []
  | v :: rest => pyRepr v :: pyReprElems rest

def pyReprFields : List (String × Value) → List String
  | [] => []
  | (k, v) :: rest => ("'" ++ k ++ "': " ++ pyRepr v) :: pyReprFields rest

end

/-- Python `str` of a value (used by f-string interpolation): strings stay
as they are, everything else falls back to `repr`. -/
def pyStr : Value → String
  | Value.vStr s => s
  | v => pyRepr v

/-- Python truthiness, as `get_service_status` uses it (`if service_name:`). -/
def Value.truthy : Value → Bool
  | Value.vNone => false
  | Value.vBool b => b
  | Value.vInt n => n != 0
  | Value.vStr s => s != ""
  | Value.vList elems => !elems.isEmpty
  | Value.vDict fields => !fields.isEmpty

/-- Python `v in d` for the string-keyed `services` dict: only a string can
be a member. -/
def Value.inStrDict (v : Value) (d : List (String × String)) : Bool :=
  match v with
  | Value.vStr s => pyHasKey d s
  | _ => false

/-- Python `v if isinstance-as-int`, reflecting that `bool` is a subtype of
`int`: the int the value stands for in arithmetic and slicing, if any. -/
def Value.asInt : Value → Option Int
  | Value.vInt n => Option.some n
  | Value.vBool b => Option.some (if b then 1 else 0)
  | _ => Option.none

/-- The `services` dict as a Python value (returned whole by
`get_service_status` with no argument). -/
def servicesValue (services : List (String × String)) : Value :=
  Value.vDict (services.map (fun kv => (kv.1, Value.vStr kv.2)))

/-- `list(self.services.keys())` as a Python value. -/
def serviceKeysValue (services : List (String × String)) : Value :=
  Value.vList ((pyKeys services).map Value.vStr)

/-- Each tool method returns a Python value or raises; the state moves in
either case (a raise after `_log_action` keeps the appended entry).  The
error string is the final message `execute_tool` would report, i.e. after
`_execute_tool_function` wraps an in-call `TypeError` into
`ValueError("Invalid arguments for ...")`; CPython's exact `TypeError`
wording is not reproduced. -/
abbrev ToolOutcome := Except String Value × Infra

/-- `CloudInfrastructure.list_services()`. -/
def CloudInfrastructure.list_services (infra : Infra) (now : String) : ToolOutcome :=
  let infra := infra.logAction now "list_services" []
  (Except.ok (Value.vDict [("services", serviceKeysValue infra.services),
    ("timestamp", Value.vStr now)]), infra)

/-- `CloudInfrastructure.get_service_status(service_name=None)`.  The
argument is a raw runtime value: the body tests truthiness and dict
membership, both total, so this method never raises. -/
def CloudInfrastructure.get_service_status (service_name : Value) (infra : Infra)
    (now : String) : ToolOutcome :=
  let infra := infra.logAction now "get_service_status" [("service", service_name)]
  if service_name.truthy then
    if ¬ service_name.inStrDict infra.services then
      (Except.ok (Value.vDict [("status", Value.vStr "error"),
        ("message", Value.vStr ("Service '" ++ pyStr service_name ++ "' not found")),
        ("available_services", serviceKeysValue infra.services)]), infra)
    else
      (Except.ok (Value.vDict [("service", service_name),
        ("health", Value.vStr ((pyLookup infra.services (pyStr service_name)).getD "")),
        ("timestamp", Value.vStr now)]), infra)
  else
    (Except.ok (Value.vDict [("services", servicesValue infra.services),
      ("fleet_size", Value.vInt infra.fleet_size),
      ("timestamp", Value.vStr now)]), infra)

/-- The five simulated log lines of `read_logs`. -/
def log_entries : List String :=
  ["[INFO] Web server processing request - 200 OK",
   "[INFO] Database connection pool: 45/100 active",
   "[WARN] API response time: 234ms (threshold: 200ms)",
   "[INFO] Cache hit rate: 87%",
   "[INFO] Fleet health check: All instances responding"]

/-- Python slice `xs[:n]`, including the negative-bound case. -/
def pySliceTo {α : Type} (xs : List α) (n : Int) : List α :=
  if 0 ≤ n then xs.take n.toNat else xs.take (xs.length - (-n).toNat)

/-- `CloudInfrastructure.read_logs(lines=10)`: logs first, then slices; a
non-int `lines` raises `TypeError` at the slice, after the log append. -/
def CloudInfrastructure.read_logs (lines : Value) (infra : Infra) (now : String) : ToolOutcome :=
  let infra := infra.logAction now "read_logs" [("lines", lines)]
  match lines.asInt with
  | Option.some n =>
    (Except.ok (Value.vDict [("log_lines", Value.vList ((pySliceTo log_entries n).map Value.vStr)),
      ("timestamp", Value.vStr now),
      ("total_available", Value.vInt (log_entries.length : Int))]), infra)
  | Option.none =>
    (Except.error "Invalid arguments for read_logs: unsupported slice bound", infra)

/-- `CloudInfrastructure.restart_service(service_name)`: logs, reports an
error result for an unknown service, otherwise sets its health to
"healthy" in place. -/
def CloudInfrastructure.restart_service (service_name : Value) (infra : Infra)
    (now : String) : ToolOutcome :=
  let infra := infra.logAction now "restart_service" [("service", service_name)]
  match service_name with
  | Value.vStr s =>
    if ¬ pyHasKey infra.services s then
      (Except.ok (Value.vDict [("status", Value.vStr "error"),
        ("message", Value.vStr ("Service '" ++ s ++ "' not found")),
        ("available_services", serviceKeysValue infra.services)]), infra)
    else
      let services2 := infra.services.map (fun kv => if kv.1 = s then (kv.1, "healthy") else kv)
      let infra := { infra with services := services2 }
      (Except.ok (Value.vDict [("status", Value.vStr "success"),
        ("service", Value.vStr s),
        ("action", Value.vStr "restart"),
        ("new_health", Value.vStr "healthy"),
        ("message", Value.vStr ("Service '" ++ s ++ "' successfully restarted")),
        ("timestamp", Value.vStr now)]), infra)
  | v =>
    (Except.ok (Value.vDict [("status", Value.vStr "error"),
      ("message", Value.vStr ("Service '" ++ pyStr v ++ "' not found")),
      ("available_services", serviceKeysValue infra.services)]), infra)

/-- `CloudInfrastructure.scale_fleet(count)`: logs the target count, rejects
counts below 1 or above 100 with an error result (state untouched beyond
the log entry), otherwise records the old size and assigns
`fleet_size = count`.  A non-int `count` raises `TypeError` at the first
comparison, after the log append. -/
def CloudInfrastructure.scale_fleet (count : Value) (infra : Infra) (now : String) : ToolOutcome :=
  let infra := infra.logAction now "scale_fleet" [("target_count", count)]
  match count.asInt with
  | Option.some n =>
    if n < 1 then
      (Except.ok (Value.vDict [("status", Value.vStr "error"),
        ("message", Value.vStr "Fleet size must be at least 1")]), infra)
    else if n > 100 then
      (Except.ok (Value.vDict [("status", Value.vStr "error"),
        ("message", Value.vStr "Fleet size cannot exceed 100 instances")]), infra)
    else
      let old_size := infra.fleet_size
      let infra := { infra with fleet_size := n }
      (Except.ok (Value.vDict [("status", Value.vStr "success"),
        ("action", Value.vStr "scale"),
        ("old_size", Value.vInt old_size),
        ("new_size", Value.vInt n),
        ("message", Value.vStr ("Fleet scaled from " ++ toString old_size ++
          " to " ++ toString n ++ " instances")),
        ("timestamp", Value.vStr now)]), infra)
  | Option.none =>
    (Except.error "Invalid arguments for scale_fleet: unsupported comparison", infra)

/-- `CloudInfrastructure.delete_database(db_name)`: logs and returns an
error-status result; it never mutates `services` or `fleet_size` (the mock
only demonstrates that the policy layer must keep it from running). -/
def CloudInfrastructure.delete_database (db_name : Value) (infra : Infra)
    (now : String) : ToolOutcome :=
  let infra := infra.logAction now "delete_database" [("db_name", db_name)]
  (Except.ok (Value.vDict [("status", Value.vStr "error"),
    ("message", Value.vStr "This operation should never execute - policy violation!"),
    ("db_name", db_name),
    ("timestamp", Value.vStr now)]), infra)

/-- Keyword-argument binding for `tool_function(**arguments)`: every given
key must name a parameter and every required parameter must be given,
otherwise the call raises `TypeError` before the function body runs. -/
def kwOk (args : PyDict) (params required : List String) : Bool :=
  (pyKeys args).all (fun k => params.contains k) &&
    required.all (fun r => pyHasKey args r)

/-- The keys of the `tool_map` dict in `_execute_tool_function`. -/
def tool_map_keys : List String :=
  ["get_service_status", "read_logs", "restart_service",
   "scale_fleet", "delete_database", "list_services"]

/-- `_execute_tool_function(tool_name, arguments)`: raises
`ValueError("Unknown tool: ...")` for a name outside `tool_map`, raises
`ValueError("Invalid arguments for ...")` when keyword binding fails, and
otherwise runs the tool on the shared `cloud_infra` state. -/
def execute_tool_function (tool_name : String) (arguments : PyDict)
    (infra : Infra) (now : String) : ToolOutcome :=
  if tool_name = "get_service_status" then
    if kwOk arguments ["service_name"] [] then
      CloudInfrastructure.get_service_status
        ((pyLookup arguments "service_name").getD Value.vNone) infra now
    else (Except.error "Invalid arguments for get_service_status: bad keyword arguments", infra)
  else if tool_name = "read_logs" then
    if kwOk arguments ["lines"] [] then
      CloudInfrastructure.read_logs
        ((pyLookup arguments "lines").getD (Value.vInt 10)) infra now
    else (Except.error "Invalid arguments for read_logs: bad keyword arguments", infra)
  else if tool_name = "restart_service" then
    if kwOk arguments ["service_name"] ["service_name"] then
      CloudInfrastructure.restart_service
        ((pyLookup arguments "service_name").getD Value.vNone) infra now
    else (Except.error "Invalid arguments for restart_service: bad keyword arguments", infra)
  else if tool_name = "scale_fleet" then
    if kwOk arguments ["count"] ["count"] then
      CloudInfrastructure.scale_fleet
        ((pyLookup arguments "count").getD Value.vNone) infra now
    else (Except.error "Invalid arguments for scale_fleet: bad keyword arguments", infra)
  else if tool_name = "delete_database" then
    if kwOk arguments ["db_name"] ["db_name"] then
      CloudInfrastructure.delete_database
        ((pyLookup arguments "db_name").getD Value.vNone) infra now
    else (Except.error "Invalid arguments for delete_database: bad keyword arguments", infra)
  else if tool_name = "list_services" then
    if kwOk arguments [] [] then
      CloudInfrastructure.list_services infra now
    else (Except.error "Invalid arguments for list_services: bad keyword arguments", infra)
  else
    (Except.error ("Unknown tool: " ++ tool_name), infra)

/-- The body of a `POST /tools/execute` request (`ToolRequest` in
server.py): `arguments` defaults to the empty dict; `context` is Optional
and may be an explicit null. -/
structure ToolRequest where
  tool_name : String
  arguments : PyDict
  context : Option PyDict

/-- The `ToolResponse` pydantic model of server.py. -/
structure ToolResponse where
  success : Bool
  result : Option Value
  error : Option String
  policy_violation : Bool
  blocked_reason : Option String

/-- An exception that escapes the `execute_tool` endpoint uncaught (only
the KeyError a missing current mode causes inside `validate`; the second
try block catches every exception the dispatch raises). -/
inductive ServerError where
  | keyError (key : String)
  deriving Repr, DecidableEq

/-- `execute_tool(request)` in server.py: validates against the policy
first; a `PolicyViolationError` becomes a structured denial with the
infrastructure untouched; otherwise `_execute_tool_function` runs and its
result or exception message is wrapped into a `ToolResponse`. -/
def Server.execute_tool (req : ToolRequest) (engine : PolicyEngine)
    (infra : Infra) (now : String) : Except ServerError (ToolResponse × Infra) :=
  match engine.validate req.tool_name (Option.some req.arguments) req.context with
  | ValidateResult.keyError k => Except.error (ServerError.keyError k)
  | ValidateResult.violation message _tool _mode reason =>
      let resp : ToolResponse :=
        { success := false, result := Option.none,
          error := Option.some ("Policy violation: " ++ reason),
          policy_violation := true, blocked_reason := Option.some message }
      Except.ok (resp, infra)
  | ValidateResult.ok =>
      match execute_tool_function req.tool_name req.arguments infra now with
      | (Except.ok result, infra2) =>
          let resp : ToolResponse :=
            { success := true, result := Option.some result,
              error := Option.none,
              policy_violation := false, blocked_reason := Option.none }
          Except.ok (resp, infra2)
      | (Except.error msg, infra2) =>
          let resp : ToolResponse :=
            { success := false, result := Option.none,
              error := Option.some ("Execution error: " ++ msg),
              policy_violation := false, blocked_reason := Option.none }
          Except.ok (resp, infra2)

/-- A concrete policy shaped like the one the demo ships (two modes, the
destructive tool globally blocked), used to instantiate theorems with
hypotheses. -/
def sampleNormalRules : ModeRules :=
  { description := "Read-only diagnostics",
    rationale := "Standard operations posture",
    allowed_tools := ["get_service_status", "read_logs", "list_services"],
    blocked_tools := ["restart_service", "scale_fleet"] }

/-- The elevated mode of the sample policy. -/
def sampleEmergencyRules : ModeRules :=
  { description := "Active incident response",
    rationale := "Incident mitigation",
    allowed_tools := ["get_service_status", "read_logs", "list_services",
      "restart_service", "scale_fleet"],
    blocked_tools := [] }

/-- The sample policy document. -/
def samplePolicy : Policy :=
  { modes := [("NORMAL", sampleNormalRules), ("EMERGENCY", sampleEmergencyRules)],
    always_blocked := ["delete_database"] }

/-- A freshly constructed engine over the sample policy. -/
def sampleEngine : PolicyEngine := PolicyEngine.init samplePolicy

/-- C1: a tool in `global_rules.always_blocked` is denied with the
GloballyBlocked reason ("Globally blocked - destructive operation") by
every engine state — whatever the current mode is and whatever its
`allowed_tools` or `blocked_tools` say, since the conclusion does not
depend on the mode rules at all; the global check also fires before any
per-mode lookup can raise. -/
theorem validate_globally_blocked_denies (e : PolicyEngine) (tool_name : String)
    (args context : Option PyDict) (h : tool_name ∈ e.policy.always_blocked) :
    e.validate tool_name args context =
      ValidateResult.violation
        ("Tool '" ++ tool_name ++ "' is globally blocked and can never be executed")
        tool_name e.current_mode "Globally blocked - destructive operation" := by
  simp [PolicyEngine.validate, h]

/-- Witness for C1: `delete_database` is globally blocked in the sample
policy, yet `NORMAL` is the current mode and the denial is GloballyBlocked. -/
theorem validate_globally_blocked_denies_witness :
    "delete_database" ∈ sampleEngine.policy.always_blocked ∧
    sampleEngine.validate "delete_database" Option.none Option.none =
      ValidateResult.violation
        "Tool 'delete_database' is globally blocked and can never be executed"
        "delete_database" "NORMAL" "Globally blocked - destructive operation" :=
  ⟨by decide,
   validate_globally_blocked_denies sampleEngine "delete_database"
     Option.none Option.none (by decide)⟩

/-- C3: a tool not globally blocked that appears in the current mode's
`blocked_tools` is denied with the BlockedInMode reason (carrying the
mode's rationale in the message), with no hypothesis about
`allowed_tools`: within a mode the blocked check fires before the
allow-list check, so blocked wins over allowed. -/
theorem validate_mode_blocked_denies (e : PolicyEngine) (tool_name : String)
    (args context : Option PyDict) (mode_policy : ModeRules)
    (hg : tool_name ∉ e.policy.always_blocked)
    (hm : pyLookup e.policy.modes e.current_mode = Option.some mode_policy)
    (hb : tool_name ∈ mode_policy.blocked_tools) :
    e.validate tool_name args context =
      ValidateResult.violation
        ("Tool '" ++ tool_name ++ "' is blocked in " ++ e.current_mode ++
          " mode. Rationale: " ++ mode_policy.rationale)
        tool_name e.current_mode ("Blocked in " ++ e.current_mode ++ " mode") := by
  simp [PolicyEngine.validate, hg, hm, hb]

/-- Witness for C3: in the sample NORMAL mode, `restart_service` sits in
`blocked_tools` (it is listed in EMERGENCY's `allowed_tools`) and is denied
as BlockedInMode. -/
theorem validate_mode_blocked_denies_witness :
    "restart_service" ∉ sampleEngine.policy.always_blocked ∧
    pyLookup sampleEngine.policy.modes sampleEngine.current_mode =
      Option.some sampleNormalRules ∧
    "restart_service" ∈ sampleNormalRules.blocked_tools ∧
    sampleEngine.validate "restart_service" Option.none Option.none =
      ValidateResult.violation
        "Tool 'restart_service' is blocked in NORMAL mode. Rationale: Standard operations posture"
        "restart_service" "NORMAL" "Blocked in NORMAL mode" :=
  ⟨by decide, by rfl, by decide,
   validate_mode_blocked_denies sampleEngine "restart_service" Option.none Option.none
     sampleNormalRules (by decide) (by rfl) (by decide)⟩

/-- C4: a tool that is neither globally blocked nor in the current mode's
`blocked_tools` nor in its `allowed_tools` is denied with the
NotWhitelisted reason: absence from the allow-list is itself a denial. -/
theorem validate_default_deny (e : PolicyEngine) (tool_name : String)
    (args context : Option PyDict) (mode_policy : ModeRules)
    (hg : tool_name ∉ e.policy.always_blocked)
    (hm : pyLookup e.policy.modes e.current_mode = Option.some mode_policy)
    (hb : tool_name ∉ mode_policy.blocked_tools)
    (ha : tool_name ∉ mode_policy.allowed_tools) :
    e.validate tool_name args context =
      ValidateResult.violation
        ("Tool '" ++ tool_name ++ "' is not in the allowed list for " ++
          e.current_mode ++ " mode")
        tool_name e.current_mode
        ("Not whitelisted for " ++ e.current_mode ++ " mode") := by
  simp [PolicyEngine.validate, hg, hm, hb, ha]

/-- Witness for C4: `unregistered_tool` appears in no list of the sample
policy and is denied as NotWhitelisted in NORMAL mode. -/
theorem validate_default_deny_witness :
    "unregistered_tool" ∉ sampleEngine.policy.always_blocked ∧
    "unregistered_tool" ∉ sampleNormalRules.blocked_tools ∧
    "unregistered_tool" ∉ sampleNormalRules.allowed_tools ∧
    sampleEngine.validate "unregistered_tool" Option.none Option.none =
      ValidateResult.violation
        "Tool 'unregistered_tool' is not in the allowed list for NORMAL mode"
        "unregistered_tool" "NORMAL" "Not whitelisted for NORMAL mode" :=
  ⟨by decide, by decide, by decide,
   validate_default_deny sampleEngine "unregistered_tool" Option.none Option.none
     sampleNormalRules (by decide) (by rfl) (by decide) (by decide)⟩

/-- C5: `set_mode` to a name that is not a key of `modes` raises ValueError
and leaves the engine state (hence the mode every later read and decision
observes) exactly as it was; `set_mode` to a key of `modes` assigns that
name to `current_mode`. -/
theorem set_mode_invalid_unchanged_valid_sets (e : PolicyEngine) (mode : String) :
    (pyLookup e.policy.modes mode = Option.none →
      (e.set_mode mode).2 = e ∧ ∃ msg, (e.set_mode mode).1 = Except.error msg) ∧
    ((pyLookup e.policy.modes mode).isSome = true →
      e.set_mode mode = (Except.ok (), { e with current_mode := mode })) := by
  constructor
  · intro h
    have hk : pyHasKey e.policy.modes mode = false := by simp [pyHasKey, h]
    refine ⟨by simp [PolicyEngine.set_mode, hk],
      "Invalid mode: " ++ mode ++ ". Available: " ++ pyReprStrList (pyKeys e.policy.modes),
      by simp [PolicyEngine.set_mode, hk]⟩
  · intro h
    have hk : pyHasKey e.policy.modes mode = true := by simp [pyHasKey, h]
    simp [PolicyEngine.set_mode, hk]

/-- Witness for C5: `MAINTENANCE` is not a sample mode and the call leaves
the engine untouched; `EMERGENCY` is one and the call sets it. -/
theorem set_mode_invalid_unchanged_valid_sets_witness :
    ((sampleEngine.set_mode "MAINTENANCE").2 = sampleEngine ∧
      ∃ msg, (sampleEngine.set_mode "MAINTENANCE").1 = Except.error msg) ∧
    sampleEngine.set_mode "EMERGENCY" =
      (Except.ok (), { sampleEngine with current_mode := "EMERGENCY" }) :=
  ⟨(set_mode_invalid_unchanged_valid_sets sampleEngine "MAINTENANCE").1 (by rfl),
   (set_mode_invalid_unchanged_valid_sets sampleEngine "EMERGENCY").2 (by rfl)⟩

/-- C9: the decision is a pure, deterministic function of the tool name,
the policy and the current mode alone: two engine states agreeing on
policy and mode produce the same `validate` result for the same tool under
any two choices of `args` and `context` (including omitted ones), so
repeating a call reproduces the decision verbatim. -/
theorem validate_pure_deterministic (e1 e2 : PolicyEngine) (tool_name : String)
    (args1 context1 args2 context2 : Option PyDict)
    (hp : e1.policy = e2.policy) (hm : e1.current_mode = e2.current_mode) :
    e1.validate tool_name args1 context1 = e2.validate tool_name args2 context2 := by
  cases e1 with
  | mk p1 m1 =>
    cases e2 with
    | mk p2 m2 =>
      have hp2 : p1 = p2 := hp
      have hm2 : m1 = m2 := hm
      subst hp2
      subst hm2
      rfl

/-- Witness for C9: the same engine queried about `read_logs` with
different `args`/`context` (one call passing arguments, one passing none)
yields identical decisions. -/
theorem validate_pure_deterministic_witness :
    sampleEngine.validate "read_logs" (Option.some [("lines", Value.vInt 3)]) Option.none =
      sampleEngine.validate "read_logs" Option.none (Option.some []) :=
  validate_pure_deterministic sampleEngine sampleEngine "read_logs"
    (Option.some [("lines", Value.vInt 3)]) Option.none Option.none (Option.some [])
    (by rfl) (by rfl)

/-- C6 (amended): `_load_policy` fails exactly when the policy source is
missing (FileNotFoundError), fails to parse (json.JSONDecodeError), or
parses to a non-dict top level (AttributeError out of the banner's
`policy.get` call) — an exception that propagates out of `__init__`, so no
engine is constructed and no requests are served — while every parsed dict
document is returned unchanged whatever keys it carries: the presence of
the top-level keys "modes" and "global_rules" is not checked at load
time. -/
theorem load_policy_errors_iff_source_bad :
    load_policy PolicySource.missing = Except.error LoadError.fileNotFound ∧
    load_policy PolicySource.unparsable = Except.error LoadError.jsonDecodeError ∧
    (∀ fields : List (String × Value),
      load_policy (PolicySource.parsed (Value.vDict fields)) =
        Except.ok (Value.vDict fields)) ∧
    (∀ doc : Value, (∀ fields, doc ≠ Value.vDict fields) →
      load_policy (PolicySource.parsed doc) = Except.error LoadError.attributeError) := by
  refine ⟨rfl, rfl, fun _ => rfl, ?_⟩
  intro doc h
  cases doc with
  | vDict fields => exact absurd rfl (h fields)
  | vNone => rfl
  | vBool b => rfl
  | vInt n => rfl
  | vStr s => rfl
  | vList elems => rfl

/-- Witness for C6 (amended): a file holding the valid JSON document `[]`
parses to a non-dict top level, and loading it fails with AttributeError. -/
theorem load_policy_errors_iff_source_bad_witness :
    load_policy (PolicySource.parsed (Value.vList [])) =
      Except.error LoadError.attributeError :=
  load_policy_errors_iff_source_bad.2.2.2 (Value.vList [])
    (fun _ h => Value.noConfusion h)

/-- Counterexample to C6 as stated: a parsed document with no fields at all
lacks both required top-level keys, yet `_load_policy` returns it
successfully instead of failing. -/
theorem load_policy_accepts_missing_keys :
    pyLookup ([] : PyDict) "modes" = Option.none ∧
    pyLookup ([] : PyDict) "global_rules" = Option.none ∧
    load_policy (PolicySource.parsed (Value.vDict [])) = Except.ok (Value.vDict []) :=
  ⟨rfl, rfl, rfl⟩

/-- A policy document that defines no "NORMAL" mode; constructing an engine
over it breaks the mode-validity invariant immediately. -/
def policyNoNormal : Policy :=
  { modes := [("EMERGENCY", sampleEmergencyRules)],
    always_blocked := ["delete_database"] }

/-- Counterexample to C7 as stated: over a policy whose `modes` map lacks
"NORMAL", the freshly constructed engine is a reachable state whose
`current_mode` ("NORMAL", assigned independently of the document) is not a
key of the modes map. -/
theorem init_mode_not_key_cex :
    Reachable policyNoNormal (PolicyEngine.init policyNoNormal) ∧
    (PolicyEngine.init policyNoNormal).current_mode = "NORMAL" ∧
    pyLookup (PolicyEngine.init policyNoNormal).policy.modes
      (PolicyEngine.init policyNoNormal).current_mode = Option.none :=
  ⟨Reachable.init, rfl, by decide⟩

/-- C7 (amended): construction does set `current_mode = "NORMAL"`
independently of the policy document, and `set_mode` only ever installs
keys of `modes`; therefore, provided the document defines a "NORMAL" mode,
every reachable engine state keeps the loaded policy and has a
`current_mode` that is a key of its modes map.  (Without that proviso the
invariant fails at construction, see the counterexample.) -/
theorem reachable_current_mode_defined (p : Policy) (e : PolicyEngine)
    (hN : (pyLookup p.modes "NORMAL").isSome = true) (he : Reachable p e) :
    e.policy = p ∧ (pyLookup e.policy.modes e.current_mode).isSome = true := by
  induction he with
  | init => exact ⟨rfl, hN⟩
  | step e' mode he' ih =>
    by_cases hk : pyHasKey e'.policy.modes mode
    · have h2 : (e'.set_mode mode).2 = { e' with current_mode := mode } := by
        simp [PolicyEngine.set_mode, hk]
      rw [h2]
      refine ⟨ih.1, ?_⟩
      simpa [pyHasKey] using hk
    · have h2 : (e'.set_mode mode).2 = e' := by
        simp [PolicyEngine.set_mode, hk]
      rw [h2]
      exact ih

/-- Witness for C7: the sample policy defines "NORMAL", and the state
reached by one `set_mode("EMERGENCY")` step still carries the sample
policy and a defined mode. -/
theorem reachable_current_mode_defined_witness :
    (pyLookup samplePolicy.modes "NORMAL").isSome = true ∧
    (((PolicyEngine.init samplePolicy).set_mode "EMERGENCY").2.policy = samplePolicy ∧
      (pyLookup ((PolicyEngine.init samplePolicy).set_mode "EMERGENCY").2.policy.modes
        ((PolicyEngine.init samplePolicy).set_mode "EMERGENCY").2.current_mode).isSome = true) :=
  ⟨by rfl,
   reachable_current_mode_defined samplePolicy _ (by rfl)
     (Reachable.step (PolicyEngine.init samplePolicy) "EMERGENCY" Reachable.init)⟩

/-- C2: whenever the policy check denies the requested tool, `execute_tool`
returns the structured denial (success false, policy_violation true, the
raised error's reason and message as `error` and `blocked_reason`) and the
infrastructure state comes back identical: `_execute_tool_function` is
never entered, so no operation runs and no audit entry is appended. -/
theorem denied_request_returns_denial_untouched (req : ToolRequest)
    (engine : PolicyEngine) (infra : Infra) (now : String)
    (message tool mode reason : String)
    (h : engine.validate req.tool_name (Option.some req.arguments) req.context =
      ValidateResult.violation message tool mode reason) :
    Server.execute_tool req engine infra now =
      Except.ok
        ({ success := false, result := Option.none,
           error := Option.some ("Policy violation: " ++ reason),
           policy_violation := true,
           blocked_reason := Option.some message }, infra) := by
  simp [Server.execute_tool, h]

/-- A request for the globally blocked tool, used to instantiate C2. -/
def deniedReq : ToolRequest :=
  { tool_name := "delete_database",
    arguments := [("db_name", Value.vStr "prod")],
    context := Option.some [] }

/-- Witness for C2: executing `delete_database` on a fresh sample engine is
denied as GloballyBlocked, the response carries the blocked reason, and the
infrastructure (services, fleet, audit log) is exactly the initial one. -/
theorem denied_request_returns_denial_untouched_witness :
    sampleEngine.validate "delete_database"
      (Option.some [("db_name", Value.vStr "prod")]) (Option.some []) =
      ValidateResult.violation
        "Tool 'delete_database' is globally blocked and can never be executed"
        "delete_database" "NORMAL" "Globally blocked - destructive operation" ∧
    Server.execute_tool deniedReq sampleEngine Infra.init "t0" =
      Except.ok
        ({ success := false, result := Option.none,
           error := Option.some "Policy violation: Globally blocked - destructive operation",
           policy_violation := true,
           blocked_reason := Option.some
             "Tool 'delete_database' is globally blocked and can never be executed" },
         Infra.init) :=
  ⟨by rfl,
   denied_request_returns_denial_untouched deniedReq sampleEngine Infra.init "t0"
     "Tool 'delete_database' is globally blocked and can never be executed"
     "delete_database" "NORMAL" "Globally blocked - destructive operation" (by rfl)⟩

/-- C8: a tool that passes the policy check but is not a key of `tool_map`
makes `_execute_tool_function` raise ValueError("Unknown tool: ..."),
which `execute_tool` reports as an execution failure — success false with
the unknown-tool message, policy_violation false, no blocked reason — and
the infrastructure state is untouched. -/
theorem unknown_tool_reported_as_execution_failure (req : ToolRequest)
    (engine : PolicyEngine) (infra : Infra) (now : String)
    (hok : engine.validate req.tool_name (Option.some req.arguments) req.context =
      ValidateResult.ok)
    (hunknown : req.tool_name ∉ tool_map_keys) :
    Server.execute_tool req engine infra now =
      Except.ok
        ({ success := false, result := Option.none,
           error := Option.some ("Execution error: " ++ ("Unknown tool: " ++ req.tool_name)),
           policy_violation := false,
           blocked_reason := Option.none }, infra) := by
  simp only [tool_map_keys, List.mem_cons, List.not_mem_nil, or_false, not_or] at hunknown
  obtain ⟨n1, n2, n3, n4, n5, n6⟩ := hunknown
  simp [Server.execute_tool, hok, execute_tool_function, n1, n2, n3, n4, n5, n6]

/-- A mode that allows a tool no registry entry implements, the
configuration inconsistency C8 is about. -/
def misconfigRules : ModeRules :=
  { description := "Misconfigured mode",
    rationale := "Allows a tool that has no implementation",
    allowed_tools := ["mystery_tool"],
    blocked_tools := [] }

/-- A policy whose NORMAL mode allows the unimplemented tool. -/
def misconfigPolicy : Policy :=
  { modes := [("NORMAL", misconfigRules)], always_blocked := [] }

/-- A request for the policy-allowed but unimplemented tool. -/
def mysteryReq : ToolRequest :=
  { tool_name := "mystery_tool", arguments := [], context := Option.some [] }

/-- Witness for C8: `mystery_tool` passes validation under the
misconfigured policy, is absent from the registry, and comes back as an
execution failure with the infrastructure untouched. -/
theorem unknown_tool_reported_as_execution_failure_witness :
    (PolicyEngine.init misconfigPolicy).validate "mystery_tool"
      (Option.some []) (Option.some []) = ValidateResult.ok ∧
    "mystery_tool" ∉ tool_map_keys ∧
    Server.execute_tool mysteryReq (PolicyEngine.init misconfigPolicy) Infra.init "t0" =
      Except.ok
        ({ success := false, result := Option.none,
           error := Option.some "Execution error: Unknown tool: mystery_tool",
           policy_violation := false,
           blocked_reason := Option.none }, Infra.init) :=
  ⟨by rfl, by decide,
   unknown_tool_reported_as_execution_failure mysteryReq (PolicyEngine.init misconfigPolicy)
     Infra.init "t0" (by rfl) (by decide)⟩

/-- C10: `scale_fleet(count)` always leaves `services` unchanged and
appends exactly one audit entry (logged before validation, so also on
rejections); a count below 1 or above 100 yields a status-"error" result
with `fleet_size` unchanged, while a count within bounds yields a
status-"success" result reporting the old and new sizes and assigns
`fleet_size = count`. -/
theorem scale_fleet_bounds_and_audit (count : Int) (infra : Infra) (now : String) :
    (CloudInfrastructure.scale_fleet (Value.vInt count) infra now).2.services = infra.services ∧
    (CloudInfrastructure.scale_fleet (Value.vInt count) infra now).2.execution_log =
      infra.execution_log ++
        [{ timestamp := now, action := "scale_fleet",
           details := [("target_count", Value.vInt count)] }] ∧
    (count < 1 ∨ count > 100 →
      (CloudInfrastructure.scale_fleet (Value.vInt count) infra now).2.fleet_size =
        infra.fleet_size ∧
      ∃ msg, (CloudInfrastructure.scale_fleet (Value.vInt count) infra now).1 =
        Except.ok (Value.vDict [("status", Value.vStr "error"),
          ("message", Value.vStr msg)])) ∧
    (1 ≤ count → count ≤ 100 →
      (CloudInfrastructure.scale_fleet (Value.vInt count) infra now).2.fleet_size = count ∧
      (CloudInfrastructure.scale_fleet (Value.vInt count) infra now).1 =
        Except.ok (Value.vDict [("status", Value.vStr "success"),
          ("action", Value.vStr "scale"),
          ("old_size", Value.vInt infra.fleet_size),
          ("new_size", Value.vInt count),
          ("message", Value.vStr ("Fleet scaled from " ++ toString infra.fleet_size ++
            " to " ++ toString count ++ " instances")),
          ("timestamp", Value.vStr now)])) := by
  by_cases h1 : count < 1
  · refine ⟨?_, ?_, ?_, ?_⟩
    · simp [CloudInfrastructure.scale_fleet, Value.asInt, Infra.logAction, h1]
    · simp [CloudInfrastructure.scale_fleet, Value.asInt, Infra.logAction, h1]
    · intro _
      refine ⟨?_, "Fleet size must be at least 1", ?_⟩
      · simp [CloudInfrastructure.scale_fleet, Value.asInt, Infra.logAction, h1]
      · simp [CloudInfrastructure.scale_fleet, Value.asInt, Infra.logAction, h1]
    · intro hge _
      exact absurd hge (by omega)
  · by_cases h2 : count > 100
    · refine ⟨?_, ?_, ?_, ?_⟩
      · simp [CloudInfrastructure.scale_fleet, Value.asInt, Infra.logAction, h1, h2]
      · simp [CloudInfrastructure.scale_fleet, Value.asInt, Infra.logAction, h1, h2]
      · intro _
        refine ⟨?_, "Fleet size cannot exceed 100 instances", ?_⟩
        · simp [CloudInfrastructure.scale_fleet, Value.asInt, Infra.logAction, h1, h2]
        · simp [CloudInfrastructure.scale_fleet, Value.asInt, Infra.logAction, h1, h2]
      · intro _ hle
        exact absurd hle (by omega)
    · refine ⟨?_, ?_, ?_, ?_⟩
      · simp [CloudInfrastructure.scale_fleet, Value.asInt, Infra.logAction, h1, h2]
      · simp [CloudInfrastructure.scale_fleet, Value.asInt, Infra.logAction, h1, h2]
      · intro hor
        rcases hor with h | h
        · exact absurd h h1
        · exact absurd h h2
      · intro _ _
        constructor
        · simp [CloudInfrastructure.scale_fleet, Value.asInt, Infra.logAction, h1, h2]
        · simp [CloudInfrastructure.scale_fleet, Value.asInt, Infra.logAction, h1, h2]

/-- Witness for C10: scaling the fresh infrastructure to 5 instances
succeeds, reports sizes 3 and 5, and sets the fleet size to 5. -/
theorem scale_fleet_bounds_and_audit_witness :
    (CloudInfrastructure.scale_fleet (Value.vInt 5) Infra.init "t0").2.fleet_size = 5 ∧
    (CloudInfrastructure.scale_fleet (Value.vInt 5) Infra.init "t0").1 =
      Except.ok (Value.vDict [("status", Value.vStr "success"),
        ("action", Value.vStr "scale"),
        ("old_size", Value.vInt 3),
        ("new_size", Value.vInt 5),
        ("message", Value.vStr "Fleet scaled from 3 to 5 instances"),
        ("timestamp", Value.vStr "t0")]) :=
  (scale_fleet_bounds_and_audit 5 Infra.init "t0").2.2.2 (by decide) (by decide)
